import Mathlib

/-!
Verification of the fedora-messaging repository excerpt.

The excerpt contains two source files: the unit tests of the
`ConsumerStatistics` counter (`tests/unit/twisted/test_stats.py`; the
counter's own module `fedora_messaging.twisted.stats` is not part of the
excerpt) and the documentation build script `docs/build-schemas-list.py`.

The development embeds, at the level of abstraction of the Python source:
  - elementary Python string operations used by both files
    (comparison, `strip`, `startswith`, `split`, `sort`);
  - the `ConsumerStatistics` counter, modelled from the specification since
    its module is missing from the excerpt;
  - the pure helpers `_is_prefixed`, `_get_category` and `read_packages`
    of `docs/build-schemas-list.py`, translated from the source.
-/

namespace FedoraMessaging

/-! ## Python string primitives -/

/-- Lexicographic strict comparison of two character lists by code point,
Python's `<` on strings. -/
def charListLt : List Char → List Char → Bool
  | [], [] => false
  | [], _ :: _ => true
  | _ :: _, [] => false
  | a :: as, b :: bs => if a < b then true else if b < a then false else charListLt as bs

/-- Python's `a < b` on strings. -/
def pyStrLt (a b : String) : Bool := charListLt a.data b.data

/-- Python's `a <= b` on strings (total order, so `a <= b ↔ ¬ b < a`). -/
def pyStrLe (a b : String) : Bool := !(pyStrLt b a)

/-- Python's `s.startswith(p)`. -/
def pyStartsWith (s p : String) : Bool := p.data.isPrefixOf s.data

/-- The whitespace characters removed by Python's `str.strip()`
(ASCII range). -/
def pyIsSpace (c : Char) : Bool :=
  c == ' ' || c == '\t' || c == '\n' || c == '\r' || c == '\x0b' || c == '\x0c'

/-- Python's `s.strip()`: remove leading and trailing whitespace. -/
def pyStrip (s : String) : String :=
  String.mk (((s.data.dropWhile pyIsSpace).reverse.dropWhile pyIsSpace).reverse)

/-- Splitting a character list at every occurrence of the separator, the
core of Python's `s.split(sep)` for a one-character separator: the result
always has one more chunk than there are separators, and chunks may be
empty. -/
def splitChars (sep : Char) : List Char → List (List Char)
  | [] => [[]]
  | c :: cs =>
    match splitChars sep cs with
    | [] => [[]]
    | w :: ws => if c = sep then [] :: w :: ws else (c :: w) :: ws

/-- Python's `s.split(sep)` for a one-character separator. -/
def pySplitOn (s : String) (sep : Char) : List String :=
  (splitChars sep s.data).map String.mk

/-- Python's `list.sort()` on a list of strings: stable sort in ascending
lexicographic order. -/
def pySort (l : List String) : List String :=
  List.insertionSort (fun a b => pyStrLe a b = true) l

/-! ## Bridge between the executable comparison and the mathematical
lexicographic order on `String` -/

theorem charListLt_iff : ∀ l₁ l₂ : List Char, charListLt l₁ l₂ = true ↔ List.Lex (· < ·) l₁ l₂ := by
  intro l₁
  induction l₁ with
  | nil =>
    intro l₂
    cases l₂ with
    | nil => simp [charListLt]
    | cons b bs => simp [charListLt]; exact List.Lex.nil
  | cons a as ih =>
    intro l₂
    cases l₂ with
    | nil => simp [charListLt]
    | cons b bs =>
      simp only [charListLt]
      rcases lt_trichotomy a b with hab | hab | hab
      · simp [hab]; exact List.Lex.rel hab
      · subst hab
        simp [lt_irrefl]
        rw [ih bs]
        constructor
        · exact List.Lex.cons
        · intro h
          cases h with
          | rel h => exact absurd h (lt_irrefl a)
          | cons h => exact h
      · rw [if_neg (lt_asymm hab), if_pos hab]
        simp only [Bool.false_eq_true, false_iff]
        intro h
        cases h with
        | rel h => exact absurd h (lt_asymm hab)
        | cons h => exact absurd hab (lt_irrefl a)

theorem pyStrLt_iff (a b : String) : pyStrLt a b = true ↔ a < b := by
  rw [pyStrLt, charListLt_iff, String.lt_iff_toList_lt]
  exact Iff.rfl

theorem pyStrLe_iff (a b : String) : pyStrLe a b = true ↔ a ≤ b := by
  rw [pyStrLe, Bool.not_eq_true', ← Bool.not_eq_true, pyStrLt_iff]
  exact not_lt

theorem pySort_sorted (l : List String) : List.Sorted (· ≤ ·) (pySort l) := by
  haveI : IsTotal String (fun a b => pyStrLe a b = true) := by
    constructor
    intro a b
    rcases le_total a b with h | h
    · exact Or.inl ((pyStrLe_iff a b).mpr h)
    · exact Or.inr ((pyStrLe_iff b a).mpr h)
  haveI : IsTrans String (fun a b => pyStrLe a b = true) := by
    constructor
    intro a b c hab hbc
    exact (pyStrLe_iff a c).mpr (le_trans ((pyStrLe_iff a b).mp hab) ((pyStrLe_iff b c).mp hbc))
  have h := List.sorted_insertionSort (fun a b => pyStrLe a b = true) l
  exact h.imp (fun hab => (pyStrLe_iff _ _).mp hab)

theorem pySort_perm (l : List String) : (pySort l).Perm l :=
  List.perm_insertionSort _ l

theorem pySort_perm_invariant {l l' : List String} (h : l.Perm l') : pySort l = pySort l' :=
  @List.eq_of_perm_of_sorted String (· ≤ ·) inferInstance _ _
    ((pySort_perm l).trans (h.trans (pySort_perm l').symm)) (pySort_sorted l) (pySort_sorted l')

theorem splitChars_ne_nil (sep : Char) : ∀ l : List Char, splitChars sep l ≠ [] := by
  intro l
  cases l with
  | nil => simp [splitChars]
  | cons c cs =>
    simp only [splitChars]
    cases splitChars sep cs with
    | nil => simp
    | cons w ws =>
      by_cases h : c = sep
      · simp [h]
      · simp [h]

/-! ## The ConsumerStatistics counter, modelled from the specification -/

/-- Modelled from the spec: the `ConsumerStatistics` counter of
`fedora_messaging.twisted.stats`, whose implementation module is missing
from the excerpt (only its unit tests are present). Per the spec it holds
five independently readable and writable integer fields, all `0` at
construction. -/
structure ConsumerStatistics where
  received : Int
  processed : Int
  dropped : Int
  rejected : Int
  failed : Int
deriving DecidableEq

/-- Modelled from the spec: the type's name as it appears in error
messages and in the string representation. -/
def ConsumerStatistics.typeName : String := "ConsumerStatistics"

/-- Modelled from the spec: the five field names, in declaration order
(received, processed, dropped, rejected, failed). -/
def ConsumerStatistics.FIELDS : List String :=
  ["received", "processed", "dropped", "rejected", "failed"]

/-- Modelled from the spec: `ConsumerStatistics()` constructs an instance
with all five fields set to `0`. -/
def ConsumerStatistics.new : ConsumerStatistics := ⟨0, 0, 0, 0, 0⟩

/-- Modelled from the spec: reading an attribute by name; the five field
names are readable, any other name is not an attribute. -/
def ConsumerStatistics.getattr (s : ConsumerStatistics) (name : String) : Option Int :=
  if name = "received" then some s.received
  else if name = "processed" then some s.processed
  else if name = "dropped" then some s.dropped
  else if name = "rejected" then some s.rejected
  else if name = "failed" then some s.failed
  else none

/-- Modelled from the spec: the AttributeError message produced when an
unknown field is assigned; the available attributes are listed
alphabetically sorted, not in declaration order. -/
def ConsumerStatistics.attrError (name : String) : String :=
  ConsumerStatistics.typeName ++ " does not have a " ++ name ++
    (" attribute. Available attributes: " ++
      String.intercalate ", " (pySort ConsumerStatistics.FIELDS) ++ ".")

/-- Modelled from the spec: attribute assignment; writing one of the five
fields stores the value, writing any other name fails with the
AttributeError message. -/
def ConsumerStatistics.setattr (s : ConsumerStatistics) (name : String) (v : Int) :
    Except String ConsumerStatistics :=
  if name = "received" then .ok ⟨v, s.processed, s.dropped, s.rejected, s.failed⟩
  else if name = "processed" then .ok ⟨s.received, v, s.dropped, s.rejected, s.failed⟩
  else if name = "dropped" then .ok ⟨s.received, s.processed, v, s.rejected, s.failed⟩
  else if name = "rejected" then .ok ⟨s.received, s.processed, s.dropped, v, s.failed⟩
  else if name = "failed" then .ok ⟨s.received, s.processed, s.dropped, s.rejected, v⟩
  else .error (ConsumerStatistics.attrError name)

/-- Modelled from the spec: the per-field sum of two counters, the result
of adding two `ConsumerStatistics` instances. -/
def ConsumerStatistics.addStats (a b : ConsumerStatistics) : ConsumerStatistics :=
  ⟨a.received + b.received, a.processed + b.processed, a.dropped + b.dropped,
   a.rejected + b.rejected, a.failed + b.failed⟩

/-- Modelled from the spec: a Python value appearing as the right-hand
operand of `+` on a counter: either another counter or some other value
(an integer, a string, `None`). -/
inductive PyValue where
  | stats (s : ConsumerStatistics)
  | int (n : Int)
  | str (s : String)
  | pyNone
deriving DecidableEq

/-- Modelled from the spec: the TypeError message produced when the
right-hand operand of `+` is not a `ConsumerStatistics`. -/
def ConsumerStatistics.addError : String :=
  ConsumerStatistics.typeName ++ " instances can only be added to other " ++
    ConsumerStatistics.typeName ++ " instances."

/-- Modelled from the spec: `+` on a counter; adding another counter
returns the fresh per-field sum, adding any other value fails with the
TypeError message. -/
def ConsumerStatistics.add (a : ConsumerStatistics) (rhs : PyValue) :
    Except String ConsumerStatistics :=
  match rhs with
  | .stats b => .ok (a.addStats b)
  | _ => .error ConsumerStatistics.addError

/-- Modelled from the spec: `as_dict()` exports the five fields as a
mapping in declaration order. -/
def ConsumerStatistics.as_dict (s : ConsumerStatistics) : List (String × Int) :=
  [("received", s.received), ("processed", s.processed), ("dropped", s.dropped),
   ("rejected", s.rejected), ("failed", s.failed)]

/-- Modelled from the spec: the `repr` textual form,
`<ConsumerStatistics ...>` embedding the dictionary literal in declaration
order with the actual field values. -/
def ConsumerStatistics.reprStr (s : ConsumerStatistics) : String :=
  ("<" ++ ConsumerStatistics.typeName ++ " \x7b'received': ") ++ toString s.received ++
    (", 'processed': " ++ toString s.processed ++
      (", 'dropped': " ++ toString s.dropped ++
        (", 'rejected': " ++ toString s.rejected ++
          (", 'failed': " ++ toString s.failed ++ "\x7d>"))))

/-- Modelled from the spec: the `str` textual form, identical to the
`repr` form. -/
def ConsumerStatistics.strForm (s : ConsumerStatistics) : String := s.reprStr

/-- Modelled from the spec: a store of live counter instances together
with the effect of `c = a + b` on it; the spec states that addition
allocates a fresh instance and mutates neither operand, so the operation
appends the per-field sum of the instances at positions `i` and `j` to the
store and returns the position of the fresh instance. -/
def ConsumerStatistics.addAlloc (store : List ConsumerStatistics) (i j : Nat) :
    Option (List ConsumerStatistics × Nat) :=
  match store[i]?, store[j]? with
  | some a, some b => some (store ++ [a.addStats b], store.length)
  | _, _ => none

/-! ## Pure helpers of docs/build-schemas-list.py, translated from the
source -/

namespace BuildSchemasList

/-- The `PREFIXES` constant of `docs/build-schemas-list.py`. -/
def PREFIXES : List String := ["org.fedoraproject.", "org.release-monitoring."]

/-- `_is_prefixed` from `docs/build-schemas-list.py`: whether the topic
starts with one of the two prefixes. -/
def is_prefixed (topic : String) : Bool :=
  PREFIXES.any (fun p => pyStartsWith topic p)

/-- `_get_category` from `docs/build-schemas-list.py`: index 3 of
`topic.split(".")` when the topic is prefixed, index 0 otherwise; `none`
models the IndexError raised when the index is out of range. -/
def get_category (topic : String) : Option String :=
  let index : Nat := if is_prefixed topic then 3 else 0
  (pySplitOn topic '.')[index]?

/-- `read_packages` from `docs/build-schemas-list.py`, as a function of
the list of lines of the schemas file: strip each line, skip lines that
are empty or start with a hash after stripping, then sort ascending. -/
def read_packages (lines : List String) : List String :=
  pySort ((lines.map pyStrip).filter (fun l => !(l == "" || pyStartsWith l "#")))

end BuildSchemasList

/-! ## Claim theorems -/

/-- C1: adding two `ConsumerStatistics` instances yields a fresh instance
whose exported dictionary is the fieldwise sum of the operands' exported
dictionaries, and on the concrete scenario of the test suite the sum of
received=42, processed=43 and received=1, processed=2, dropped=10 exports
to received=43, processed=45, dropped=10, rejected=0, failed=0. -/
theorem stats_add_fieldwise_sum :
    (∀ a b : ConsumerStatistics, ∃ c, a.add (.stats b) = .ok c ∧
      ∀ f, f ∈ ConsumerStatistics.FIELDS →
        ∃ x y, a.as_dict.lookup f = some x ∧ b.as_dict.lookup f = some y ∧
          c.as_dict.lookup f = some (x + y)) ∧
    (ConsumerStatistics.add ⟨42, 43, 0, 0, 0⟩ (.stats ⟨1, 2, 10, 0, 0⟩) =
        .ok ⟨43, 45, 10, 0, 0⟩ ∧
      ConsumerStatistics.as_dict ⟨43, 45, 10, 0, 0⟩ =
        [("received", 43), ("processed", 45), ("dropped", 10), ("rejected", 0),
          ("failed", 0)]) := by
  constructor
  · intro a b
    refine ⟨a.addStats b, rfl, ?_⟩
    intro f hf
    simp only [ConsumerStatistics.FIELDS, List.mem_cons, List.not_mem_nil, or_false] at hf
    rcases hf with rfl | rfl | rfl | rfl | rfl
    · exact ⟨a.received, b.received, rfl, rfl, rfl⟩
    · exact ⟨a.processed, b.processed, rfl, rfl, rfl⟩
    · exact ⟨a.dropped, b.dropped, rfl, rfl, rfl⟩
    · exact ⟨a.rejected, b.rejected, rfl, rfl, rfl⟩
    · exact ⟨a.failed, b.failed, rfl, rfl, rfl⟩
  · exact ⟨rfl, rfl⟩

/-- Witness for C1 at two concrete all-zero instances and the field
"received". -/
theorem stats_add_fieldwise_sum_witness :
    ∃ c, ConsumerStatistics.new.add (.stats ConsumerStatistics.new) = .ok c ∧
      ∃ x y, ConsumerStatistics.new.as_dict.lookup "received" = some x ∧
        ConsumerStatistics.new.as_dict.lookup "received" = some y ∧
        c.as_dict.lookup "received" = some (x + y) := by
  obtain ⟨c, hc, h⟩ := stats_add_fieldwise_sum.1 ConsumerStatistics.new ConsumerStatistics.new
  exact ⟨c, hc, h "received" (by decide)⟩

/-- C2: assigning an attribute whose name is not one of the five fields
fails with exactly the AttributeError message listing the available
attributes alphabetically sorted, while assigning any of the five valid
field names never produces this error. -/
theorem stats_setattr_unknown_field :
    ∀ (s : ConsumerStatistics) (name : String) (v : Int),
      (name ∉ ConsumerStatistics.FIELDS →
        s.setattr name v = .error ("ConsumerStatistics does not have a " ++ name ++
          " attribute. Available attributes: dropped, failed, processed, received, rejected.")) ∧
      (name ∈ ConsumerStatistics.FIELDS → ∃ t, s.setattr name v = .ok t) := by
  intro s name v
  constructor
  · intro hn
    simp only [ConsumerStatistics.FIELDS, List.mem_cons, List.not_mem_nil, or_false,
      not_or] at hn
    obtain ⟨h1, h2, h3, h4, h5⟩ := hn
    simp only [ConsumerStatistics.setattr]
    rw [if_neg h1, if_neg h2, if_neg h3, if_neg h4, if_neg h5]
    congr 1
  · intro hn
    simp only [ConsumerStatistics.FIELDS, List.mem_cons, List.not_mem_nil, or_false] at hn
    rcases hn with rfl | rfl | rfl | rfl | rfl
    · exact ⟨_, rfl⟩
    · exact ⟨_, rfl⟩
    · exact ⟨_, rfl⟩
    · exact ⟨_, rfl⟩
    · exact ⟨_, rfl⟩

/-- Witness for C2 at the unknown name "dummy" of the test suite and at
the valid name "received". -/
theorem stats_setattr_unknown_field_witness :
    ConsumerStatistics.new.setattr "dummy" 42 =
      .error ("ConsumerStatistics does not have a " ++ "dummy" ++
        " attribute. Available attributes: dropped, failed, processed, received, rejected.") ∧
    ∃ t, ConsumerStatistics.new.setattr "received" 42 = .ok t :=
  ⟨(stats_setattr_unknown_field ConsumerStatistics.new "dummy" 42).1 (by decide),
   (stats_setattr_unknown_field ConsumerStatistics.new "received" 42).2 (by decide)⟩

/-- C3: adding a value that is not a `ConsumerStatistics` to a counter
fails with exactly the TypeError message, and adding another counter never
produces this error. -/
theorem stats_add_bad_type :
    ∀ (a : ConsumerStatistics) (rhs : PyValue),
      ((∀ b, rhs ≠ .stats b) →
        a.add rhs =
          .error "ConsumerStatistics instances can only be added to other ConsumerStatistics instances.") ∧
      (∀ b, a.add (.stats b) = .ok (a.addStats b)) := by
  intro a rhs
  have he : ConsumerStatistics.addError =
      "ConsumerStatistics instances can only be added to other ConsumerStatistics instances." := by
    decide
  constructor
  · intro h
    cases rhs with
    | stats b => exact absurd rfl (h b)
    | int n => rw [← he]; rfl
    | str s => rw [← he]; rfl
    | pyNone => rw [← he]; rfl
  · intro b
    rfl

/-- Witness for C3 at the integer operand 42 of the test suite. -/
theorem stats_add_bad_type_witness :
    ConsumerStatistics.new.add (.int 42) =
      .error "ConsumerStatistics instances can only be added to other ConsumerStatistics instances." :=
  (stats_add_bad_type ConsumerStatistics.new (.int 42)).1
    (fun _ h => PyValue.noConfusion h)

/-- C4: the repr and str textual forms coincide and equal the canonical
format with the field values substituted in declaration order, and a
freshly constructed instance has all five fields equal to 0 and the
all-zero representation of the test suite. -/
theorem stats_repr_canonical :
    (∀ s : ConsumerStatistics, s.strForm = s.reprStr) ∧
    (∀ s : ConsumerStatistics, s.reprStr =
      "<ConsumerStatistics \x7b'received': " ++ toString s.received ++
        (", 'processed': " ++ toString s.processed ++
          (", 'dropped': " ++ toString s.dropped ++
            (", 'rejected': " ++ toString s.rejected ++
              (", 'failed': " ++ toString s.failed ++ "\x7d>"))))) ∧
    (ConsumerStatistics.new.received = 0 ∧ ConsumerStatistics.new.processed = 0 ∧
      ConsumerStatistics.new.dropped = 0 ∧ ConsumerStatistics.new.rejected = 0 ∧
      ConsumerStatistics.new.failed = 0) ∧
    ConsumerStatistics.new.reprStr =
      "<ConsumerStatistics \x7b'received': 0, 'processed': 0, 'dropped': 0, 'rejected': 0, 'failed': 0\x7d>" := by
  refine ⟨fun s => rfl, fun s => ?_, ⟨rfl, rfl, rfl, rfl, rfl⟩, by decide⟩
  simp only [ConsumerStatistics.reprStr]
  rw [show ("<" ++ ConsumerStatistics.typeName ++ " \x7b'received': " : String) =
    "<ConsumerStatistics \x7b'received': " from by decide]

/-- C5: `as_dict` exports exactly the five field names as keys, in
declaration order, each mapped to the current value of that field. -/
theorem stats_as_dict_fields :
    ∀ s : ConsumerStatistics,
      s.as_dict.map Prod.fst = ConsumerStatistics.FIELDS ∧
      s.as_dict.lookup "received" = some s.received ∧
      s.as_dict.lookup "processed" = some s.processed ∧
      s.as_dict.lookup "dropped" = some s.dropped ∧
      s.as_dict.lookup "rejected" = some s.rejected ∧
      s.as_dict.lookup "failed" = some s.failed :=
  fun _ => ⟨rfl, rfl, rfl, rfl, rfl, rfl⟩

/-- C6: writing a non-negative integer to any of the five valid field
names and then reading that field returns the written value. -/
theorem stats_field_roundtrip :
    ∀ (s : ConsumerStatistics) (f : String) (v : Int),
      f ∈ ConsumerStatistics.FIELDS → 0 ≤ v →
      ∃ t, s.setattr f v = .ok t ∧ t.getattr f = some v := by
  intro s f v hf _
  simp only [ConsumerStatistics.FIELDS, List.mem_cons, List.not_mem_nil, or_false] at hf
  rcases hf with rfl | rfl | rfl | rfl | rfl
  · exact ⟨_, rfl, rfl⟩
  · exact ⟨_, rfl, rfl⟩
  · exact ⟨_, rfl, rfl⟩
  · exact ⟨_, rfl, rfl⟩
  · exact ⟨_, rfl, rfl⟩

/-- Witness for C6 at the field "received" and the value 42. -/
theorem stats_field_roundtrip_witness :
    ∃ t, ConsumerStatistics.new.setattr "received" 42 = .ok t ∧
      t.getattr "received" = some 42 :=
  stats_field_roundtrip ConsumerStatistics.new "received" 42 (by decide) (by decide)

/-- C7: in the store model, adding the instances at positions i and j
allocates a fresh instance holding the per-field sum at a new position,
and the instances at i and j are unchanged. -/
theorem stats_add_nonmutating :
    ∀ (store : List ConsumerStatistics) (i j : Nat) (a b : ConsumerStatistics),
      store[i]? = some a → store[j]? = some b →
      ∃ store' k, ConsumerStatistics.addAlloc store i j = some (store', k) ∧
        store'[i]? = some a ∧ store'[j]? = some b ∧ k ≠ i ∧ k ≠ j ∧
        store'[k]? = some (a.addStats b) := by
  intro store i j a b hi hj
  have hilt : i < store.length := (List.getElem?_eq_some_iff.mp hi).1
  have hjlt : j < store.length := (List.getElem?_eq_some_iff.mp hj).1
  refine ⟨store ++ [a.addStats b], store.length, ?_, ?_, ?_, ?_, ?_, ?_⟩
  · simp only [ConsumerStatistics.addAlloc, hi, hj]
  · rw [List.getElem?_append_left hilt]; exact hi
  · rw [List.getElem?_append_left hjlt]; exact hj
  · exact ne_of_gt hilt
  · exact ne_of_gt hjlt
  · exact List.getElem?_concat_length store (a.addStats b)

/-- Witness for C7 on a concrete two-instance store. -/
theorem stats_add_nonmutating_witness :
    ∃ store' k,
      ConsumerStatistics.addAlloc [⟨1, 0, 0, 0, 0⟩, ⟨2, 0, 0, 0, 0⟩] 0 1 = some (store', k) ∧
      store'[0]? = some ⟨1, 0, 0, 0, 0⟩ ∧ store'[1]? = some ⟨2, 0, 0, 0, 0⟩ ∧
      k ≠ 0 ∧ k ≠ 1 ∧
      store'[k]? = some (ConsumerStatistics.addStats ⟨1, 0, 0, 0, 0⟩ ⟨2, 0, 0, 0, 0⟩) :=
  stats_add_nonmutating [⟨1, 0, 0, 0, 0⟩, ⟨2, 0, 0, 0, 0⟩] 0 1 _ _ rfl rfl

/-- C8: addition of counters is commutative and associative. -/
theorem stats_add_comm_assoc :
    ∀ a b c : ConsumerStatistics,
      a.addStats b = b.addStats a ∧
      (a.addStats b).addStats c = a.addStats (b.addStats c) := by
  intro a b c
  constructor
  · simp only [ConsumerStatistics.addStats, ConsumerStatistics.mk.injEq]
    omega
  · simp only [ConsumerStatistics.addStats, ConsumerStatistics.mk.injEq]
    omega

/-- C9: for a prefixed topic with at least four dot-separated segments
`_get_category` returns the fourth segment, for a non-prefixed topic it
returns the first segment, and for a prefixed topic with fewer than four
segments the index lookup fails. -/
theorem get_category_spec :
    ∀ topic : String,
      (BuildSchemasList.is_prefixed topic = true → 4 ≤ (pySplitOn topic '.').length →
        ∃ s, (pySplitOn topic '.')[3]? = some s ∧
          BuildSchemasList.get_category topic = some s) ∧
      (BuildSchemasList.is_prefixed topic = false →
        ∃ s, (pySplitOn topic '.')[0]? = some s ∧
          BuildSchemasList.get_category topic = some s) ∧
      (BuildSchemasList.is_prefixed topic = true → (pySplitOn topic '.').length < 4 →
        BuildSchemasList.get_category topic = none) := by
  intro topic
  refine ⟨?_, ?_, ?_⟩
  · intro hp hlen
    have hcat : BuildSchemasList.get_category topic = (pySplitOn topic '.')[3]? := by
      simp [BuildSchemasList.get_category, hp]
    rcases hx : (pySplitOn topic '.')[3]? with _ | s
    · rw [List.getElem?_eq_none_iff] at hx
      omega
    · exact ⟨s, rfl, by rw [hcat, hx]⟩
  · intro hp
    have hcat : BuildSchemasList.get_category topic = (pySplitOn topic '.')[0]? := by
      simp [BuildSchemasList.get_category, hp]
    have hpos : 0 < (pySplitOn topic '.').length := by
      rw [pySplitOn, List.length_map]
      cases hsp : splitChars '.' topic.data with
      | nil => exact absurd hsp (splitChars_ne_nil '.' topic.data)
      | cons w ws => simp
    rcases hx : (pySplitOn topic '.')[0]? with _ | s
    · rw [List.getElem?_eq_none_iff] at hx
      omega
    · exact ⟨s, rfl, by rw [hcat, hx]⟩
  · intro hp hlen
    have hcat : BuildSchemasList.get_category topic = (pySplitOn topic '.')[3]? := by
      simp [BuildSchemasList.get_category, hp]
    rw [hcat, List.getElem?_eq_none_iff]
    omega

/-- Witness for C9 at a concrete prefixed topic and a concrete
non-prefixed topic. -/
theorem get_category_spec_witness :
    (∃ s, (pySplitOn "org.fedoraproject.prod.bodhi.update" '.')[3]? = some s ∧
      BuildSchemasList.get_category "org.fedoraproject.prod.bodhi.update" = some s) ∧
    (∃ s, (pySplitOn "bodhi.update" '.')[0]? = some s ∧
      BuildSchemasList.get_category "bodhi.update" = some s) :=
  ⟨(get_category_spec "org.fedoraproject.prod.bodhi.update").1 (by decide) (by decide),
   (get_category_spec "bodhi.update").2.1 (by decide)⟩

/-- C10: `read_packages` strips every line, skips lines that are empty or
start with a hash after stripping, and returns the remaining lines sorted
in ascending lexicographic order; the result does not depend on the order
of the input lines. -/
theorem read_packages_spec :
    ∀ lines : List String,
      List.Sorted (· ≤ ·) (BuildSchemasList.read_packages lines) ∧
      (BuildSchemasList.read_packages lines).Perm
        ((lines.map pyStrip).filter (fun l => !(l == "" || pyStartsWith l "#"))) ∧
      ∀ lines' : List String, lines.Perm lines' →
        BuildSchemasList.read_packages lines = BuildSchemasList.read_packages lines' := by
  intro lines
  refine ⟨pySort_sorted _, pySort_perm _, ?_⟩
  intro lines' h
  exact pySort_perm_invariant ((h.map pyStrip).filter _)

/-- Witness for C10: a concrete file whose lines are permuted yields the
same sorted package list. -/
theorem read_packages_spec_witness :
    BuildSchemasList.read_packages ["b", "  a  ", "# c", ""] =
      BuildSchemasList.read_packages ["  a  ", "b", "# c", ""] :=
  (read_packages_spec ["b", "  a  ", "# c", ""]).2.2
    ["  a  ", "b", "# c", ""] (List.Perm.swap "  a  " "b" ["# c", ""])

end FedoraMessaging
